import Mathlib

/-!
Verification development for the pongou stores: the wallet ledger
(deposit, withdraw, placeBet, processPayout), the match coordinator
(createMatch, joinMatch, endMatch, forfeitMatch, leaveMatch) and the
identity and stats store (updateStats, fetchLeaderboard, clearCache).

Monetary amounts are modelled as exact rationals.  Record maps keyed by
string ids are modelled as functions `String → Option α`.  Randomly
generated uuid ids, `Date` timestamps and free-text description fields
carry no semantic weight in any of the store operations, so they are
omitted from the embedded records; every guard, mutation and error path
of the source is kept.
-/

namespace Pongou

/-- Map from string ids to records, as the stores' `Record<string, T>`. -/
def StrMap (α : Type) : Type := String → Option α

/-- Empty map. -/
def StrMap.empty {α : Type} : StrMap α := fun _ => none

/-- Insert or overwrite the entry at a key. -/
def StrMap.set {α : Type} (m : StrMap α) (k : String) (v : α) : StrMap α :=
  fun k2 => if k2 = k then some v else m k2

/-- Delete the entry at a key, as the `delete` statement on a record. -/
def StrMap.del {α : Type} (m : StrMap α) (k : String) : StrMap α :=
  fun k2 => if k2 = k then none else m k2

/-- Update the entry at a key in place when it is present. -/
def StrMap.adjust {α : Type} (m : StrMap α) (k : String) (f : α → α) : StrMap α :=
  fun k2 => if k2 = k then (m k).map f else m k2

/-- Transaction type tag of the wallet store. -/
inductive TxType where
  | deposit
  | withdrawal
  | bet
  | win
deriving DecidableEq, Repr

/-- Transaction status tag of the wallet store. -/
inductive TxStatus where
  | pending
  | completed
  | failed
deriving DecidableEq, Repr

/-- A transaction record of the wallet store (uuid id, timestamp and
description text omitted as non-semantic). -/
structure Transaction where
  userId : String
  amount : ℚ
  txType : TxType
  status : TxStatus
  matchId : Option String
deriving DecidableEq, Repr

/-- An escrow holding, one per match with a placed stake (timestamp omitted). -/
structure EscrowHolding where
  matchId : String
  amount : ℚ
  player1Id : String
  player2Id : String
deriving DecidableEq, Repr

/-- A wallet: total balance and the part locked in escrow
(uuid id, userId back-reference and lastUpdated omitted). -/
structure Wallet where
  balance : ℚ
  lockedBalance : ℚ
deriving DecidableEq, Repr

/-- The error messages the wallet store writes into its `error` field. -/
inductive WalletError where
  /-- message string: Invalid deposit amount -/
  | invalidDepositAmount
  /-- message string: Insufficient funds (placeBet guard) -/
  | insufficientFunds
  /-- message string: Insufficient available balance (withdraw guard) -/
  | insufficientAvailableBalance
  /-- message string: Match not found (thrown inside placeBet) -/
  | matchNotFound
  /-- message string: No escrow found for this match -/
  | noEscrowFound
  /-- message of the TypeError raised when a payout touches a missing wallet -/
  | payoutFailed
deriving DecidableEq, Repr

/-- The wallet store state (isLoading, a transient UI flag toggled on and
off inside every operation, is omitted). -/
structure WalletState where
  error : Option WalletError
  wallets : StrMap Wallet
  pendingTransactions : List Transaction
  escrowHoldings : StrMap EscrowHolding
  transactionHistory : List Transaction

/-- The initial (empty) wallet store state. -/
def initialWalletState : WalletState :=
  { error := none
    wallets := StrMap.empty
    pendingTransactions := []
    escrowHoldings := StrMap.empty
    transactionHistory := [] }

/-- PLATFORM_FEE_PERCENTAGE = 0.05 of the wallet store. -/
def PLATFORM_FEE_PERCENTAGE : ℚ := 5 / 100

/-- Status of a match in the game store (a string in the source). -/
inductive MatchStatus where
  | pending
  | active
  | completed
deriving DecidableEq, Repr

/-- A match record (createdAt, startedAt and endedAt timestamps omitted). -/
structure Match where
  id : String
  status : MatchStatus
  winner : String
  player1Id : String
  player2Id : String
  stakeAmount : ℚ
  player1Score : Nat
  player2Score : Nat
deriving DecidableEq, Repr

/-- deposit of the wallet store: rejects non-positive amounts, lazily
creates the wallet, credits the balance, records the pending transaction
and appends the completed copy to the history. -/
def deposit (userId : String) (amount : ℚ) (s : WalletState) : WalletState :=
  if amount ≤ 0 then { s with error := some .invalidDepositAmount }
  else
    let w := (s.wallets userId).getD { balance := 0, lockedBalance := 0 }
    let tx : Transaction :=
      { userId := userId, amount := amount, txType := .deposit
        status := .pending, matchId := none }
    { s with
      error := none
      wallets := s.wallets.set userId { w with balance := w.balance + amount }
      pendingTransactions := tx :: s.pendingTransactions
      transactionHistory := { tx with status := .completed } :: s.transactionHistory }

/-- withdraw of the wallet store: guards on available funds
(balance - lockedBalance), debits the balance, appends a completed
withdrawal transaction. -/
def withdraw (userId : String) (amount : ℚ) (s : WalletState) : WalletState :=
  match s.wallets userId with
  | none => { s with error := some .insufficientAvailableBalance }
  | some w =>
    if w.balance - w.lockedBalance < amount then
      { s with error := some .insufficientAvailableBalance }
    else
      { s with
        error := none
        wallets := s.wallets.set userId { w with balance := w.balance - amount }
        transactionHistory :=
          { userId := userId, amount := amount, txType := .withdrawal
            status := .completed, matchId := none } :: s.transactionHistory }

/-- placeBet of the wallet store.  It guards on the caller's available
funds, then looks the match up in the game store's activeMatches record
(and only there); on a miss it throws, which the catch block turns into
the matchNotFound error with no wallet mutation.  On success it locks the
amount, writes the escrow holding for the match and appends a completed
bet transaction. -/
def placeBet (activeMatches : StrMap Match) (userId matchId : String)
    (amount : ℚ) (s : WalletState) : WalletState :=
  match s.wallets userId with
  | none => { s with error := some .insufficientFunds }
  | some w =>
    if w.balance - w.lockedBalance < amount then
      { s with error := some .insufficientFunds }
    else
      match activeMatches matchId with
      | none => { s with error := some .matchNotFound }
      | some m =>
        let escrow : EscrowHolding :=
          { matchId := matchId, amount := amount
            player1Id := m.player1Id, player2Id := m.player2Id }
        { s with
          error := none
          wallets := s.wallets.set userId
            { w with lockedBalance := w.lockedBalance + amount }
          escrowHoldings := s.escrowHoldings.set matchId escrow
          transactionHistory :=
            { userId := userId, amount := amount, txType := .bet
              status := .completed, matchId := some matchId } :: s.transactionHistory }

/-- The loser recorded by processPayout: the escrow player that is not
the winner (player2 when player1 is the winner, player1 otherwise). -/
def payoutLoser (e : EscrowHolding) (winnerId : String) : String :=
  if e.player1Id = winnerId then e.player2Id else e.player1Id

/-- processPayout of the wallet store.  Fails with noEscrowFound when no
holding exists for the match.  Otherwise it computes totalPot, the 5
percent platform fee and the winning amount, then inside one immer
recipe releases the winner's and the loser's locked balances, credits
the winner, appends a completed win transaction and deletes the escrow;
the recipe mutates the drafts sequentially, and when either touched
wallet is missing the whole recipe throws and is discarded, leaving only
the caught error. -/
def processPayout (matchId winnerId : String) (s : WalletState) : WalletState :=
  match s.escrowHoldings matchId with
  | none => { s with error := some .noEscrowFound }
  | some escrow =>
    let totalPot := escrow.amount * 2
    let platformFee := totalPot * PLATFORM_FEE_PERCENTAGE
    let winningAmount := totalPot - platformFee
    let loserId := payoutLoser escrow winnerId
    match s.wallets winnerId with
    | none => { s with error := some .payoutFailed }
    | some _ =>
      let m1 := s.wallets.adjust winnerId
        (fun w => { w with lockedBalance := w.lockedBalance - escrow.amount })
      match m1 loserId with
      | none => { s with error := some .payoutFailed }
      | some _ =>
        let m2 := m1.adjust loserId
          (fun w => { w with lockedBalance := w.lockedBalance - escrow.amount })
        let m3 := m2.adjust winnerId
          (fun w => { w with balance := w.balance + winningAmount })
        { s with
          error := none
          wallets := m3
          escrowHoldings := s.escrowHoldings.del matchId
          transactionHistory :=
            { userId := winnerId, amount := winningAmount, txType := .win
              status := .completed, matchId := some matchId } :: s.transactionHistory }

/-- getWalletBalance of the wallet store: 0 for an unknown user. -/
def getWalletBalance (userId : String) (s : WalletState) : ℚ :=
  match s.wallets userId with
  | some w => w.balance
  | none => 0

/-- getLockedBalance of the wallet store: 0 for an unknown user. -/
def getLockedBalance (userId : String) (s : WalletState) : ℚ :=
  match s.wallets userId with
  | some w => w.lockedBalance
  | none => 0

/-- One ledger operation of the wallet store, for reasoning about
operation sequences. -/
inductive LedgerOp where
  | deposit (userId : String) (amount : ℚ)
  | withdraw (userId : String) (amount : ℚ)
  | placeBet (userId matchId : String) (amount : ℚ)
  | processPayout (matchId winnerId : String)

/-- Apply one ledger operation; the game store's activeMatches record,
read by placeBet, is passed as an ambient parameter since no ledger
operation modifies it. -/
def applyLedgerOp (activeMatches : StrMap Match) :
    LedgerOp → WalletState → WalletState
  | .deposit u a, s => deposit u a s
  | .withdraw u a, s => withdraw u a s
  | .placeBet u m a, s => placeBet activeMatches u m a s
  | .processPayout m w, s => processPayout m w s

/-- Run a sequence of ledger operations from a starting state. -/
def runLedgerOps (activeMatches : StrMap Match) (ops : List LedgerOp)
    (s : WalletState) : WalletState :=
  ops.foldl (fun st op => applyLedgerOp activeMatches op st) s

/-- The ephemeral per-match game state of the game store
(lastUpdate timestamp omitted). -/
structure GameSnapshot where
  ballX : ℚ
  ballY : ℚ
  player1Position : ℚ
  player2Position : ℚ
  score1 : Nat
  score2 : Nat
deriving DecidableEq, Repr

/-- The game store state (error and isLoading flags and matchSettings,
untouched by the operations studied here, are omitted; playerReadyStatus
sets are modelled as lists of player ids). -/
structure GameStoreState where
  gameStates : StrMap GameSnapshot
  activeMatches : StrMap Match
  matchHistory : StrMap Match
  pendingMatches : StrMap Match
  playerReadyStatus : StrMap (List String)

/-- The initial (empty) game store state. -/
def initialGameState : GameStoreState :=
  { gameStates := StrMap.empty
    activeMatches := StrMap.empty
    matchHistory := StrMap.empty
    pendingMatches := StrMap.empty
    playerReadyStatus := StrMap.empty }

/-- The errors thrown by the game store operations. -/
inductive GameError where
  /-- thrown message: Insufficient funds -/
  | insufficientFunds
  /-- thrown message: Match not found -/
  | matchNotFound
deriving DecidableEq, Repr

/-- The caller-supplied part of createMatch's matchData (an id-less
match record; status, winner, scores and timestamps are overwritten by
createMatch itself, so only these fields matter). -/
structure MatchInput where
  player1Id : String
  player2Id : String
  stakeAmount : ℚ
deriving DecidableEq, Repr

/-- A user record of the user store (email, username, timestamps
omitted as non-semantic). -/
structure User where
  wins : Nat
  losses : Nat
  totalMatches : Nat
  reputation : ℚ
deriving DecidableEq, Repr

/-- The per-user derived stats record of the user store. -/
structure UStats where
  rank : ℚ
  winRate : ℚ
  avgStake : ℚ
deriving DecidableEq, Repr

/-- One leaderboard entry. -/
structure LbEntry where
  userId : String
  rank : ℚ
  winRate : ℚ
deriving DecidableEq, Repr

/-- The matchResult argument of updateStats. -/
structure MatchResult where
  won : Bool
  stake : ℚ
deriving DecidableEq, Repr

/-- The user store state.  The users record is an insertion-ordered
association list, matching the key order a javascript object preserves
and Object.entries exposes.  Fields untouched by the studied operations
(error, isLoading, currentUser, preferences, per-user match history,
lastUpdated) are omitted. -/
structure UserState where
  users : List (String × User)
  userStats : StrMap UStats
  cachedLeaderboard : Option (List LbEntry)
  cachedLeaderboardExpiry : Option Int

/-- The initial (empty) user store state. -/
def initialUserState : UserState :=
  { users := []
    userStats := StrMap.empty
    cachedLeaderboard := none
    cachedLeaderboardExpiry := none }

/-- LEADERBOARD_CACHE_DURATION = 5 * 60 * 1000 milliseconds. -/
def LEADERBOARD_CACHE_DURATION : Int := 5 * 60 * 1000

/-- Lookup in the insertion-ordered users list. -/
def lookupUser : List (String × User) → String → Option User
  | [], _ => none
  | (k, u) :: rest, uid => if k = uid then some u else lookupUser rest uid

/-- In-place update of the insertion-ordered users list (the entry keeps
its position, as an immer draft mutation does). -/
def updateUser : List (String × User) → String → User → List (String × User)
  | [], _, _ => []
  | (k, u) :: rest, uid, u' =>
    if k = uid then (k, u') :: rest else (k, u) :: updateUser rest uid u'

/-- updateStats of the user store: a silent no-op for an unknown user;
otherwise increments wins or losses and totalMatches, recomputes
winRate as (wins / totalMatches) * 100 and avgStake as the running mean
over the new totalMatches count. -/
def updateStats (userId : String) (matchResult : MatchResult)
    (s : UserState) : UserState :=
  match lookupUser s.users userId with
  | none => s
  | some u =>
    let u' : User :=
      { u with
        wins := u.wins + (if matchResult.won then 1 else 0)
        losses := u.losses + (if matchResult.won then 0 else 1)
        totalMatches := u.totalMatches + 1 }
    let stats := (s.userStats userId).getD { rank := 0, winRate := 0, avgStake := 0 }
    let stats' : UStats :=
      { stats with
        winRate := ((u'.wins : ℚ) / (u'.totalMatches : ℚ)) * 100
        avgStake := (stats.avgStake * ((u'.totalMatches : ℚ) - 1) + matchResult.stake)
          / (u'.totalMatches : ℚ) }
    { s with
      users := updateUser s.users userId u'
      userStats := s.userStats.set userId stats' }

/-- Insert an entry into a list, before the first element whose winRate
is less than or equal to its own.  Folded over the list this is exactly
the stable descending sort that Array.prototype.sort performs with the
comparator (a, b) => b.winRate - a.winRate. -/
def insertByWinRate (x : LbEntry) : List LbEntry → List LbEntry
  | [] => [x]
  | y :: ys =>
    if y.winRate ≤ x.winRate then x :: y :: ys else y :: insertByWinRate x ys

/-- The stable sort by winRate descending used by fetchLeaderboard. -/
def sortByWinRateDesc : List LbEntry → List LbEntry
  | [] => []
  | x :: xs => insertByWinRate x (sortByWinRateDesc xs)

/-- Rank assignment pass of fetchLeaderboard:
.map((entry, index) => entry with rank = index + 1), with the index
threaded explicitly. -/
def assignRanks : Nat → List LbEntry → List LbEntry
  | _, [] => []
  | i, x :: xs => { x with rank := ((i + 1 : Nat) : ℚ) } :: assignRanks (i + 1) xs

/-- The raw leaderboard entries fetchLeaderboard builds from
Object.entries(state.users): one entry per user in insertion order,
rank and winRate pulled from userStats with 0 as fallback. -/
def lbEntries (s : UserState) : List LbEntry :=
  s.users.map (fun p =>
    { userId := p.1
      rank := ((s.userStats p.1).map UStats.rank).getD 0
      winRate := ((s.userStats p.1).map UStats.winRate).getD 0 })

/-- The recompute branch of fetchLeaderboard: sort by winRate
descending (stable), assign ranks 1.., cache the result with expiry
now + LEADERBOARD_CACHE_DURATION, and return it. -/
def recomputeLeaderboard (now : Int) (s : UserState) :
    List LbEntry × UserState :=
  let leaderboard := assignRanks 0 (sortByWinRateDesc (lbEntries s))
  (leaderboard,
    { s with
      cachedLeaderboard := some leaderboard
      cachedLeaderboardExpiry := some (now + LEADERBOARD_CACHE_DURATION) })

/-- fetchLeaderboard of the user store: returns the cached snapshot
unchanged while the cache is present and unexpired (expiry strictly
after now), otherwise recomputes. -/
def fetchLeaderboard (now : Int) (s : UserState) : List LbEntry × UserState :=
  match s.cachedLeaderboard, s.cachedLeaderboardExpiry with
  | some lb, some exp => if now < exp then (lb, s) else recomputeLeaderboard now s
  | some _, none => recomputeLeaderboard now s
  | none, _ => recomputeLeaderboard now s

/-- clearCache of the user store. -/
def clearCache (s : UserState) : UserState :=
  { s with cachedLeaderboard := none, cachedLeaderboardExpiry := none }

/-- calculateRank of the user store: 0 for a user with no stats record,
otherwise floor((winRate * 0.6 + (avgStake / 100) * 0.4) * 100). -/
def calculateRank (userId : String) (s : UserState) : Int :=
  match s.userStats userId with
  | none => 0
  | some stats =>
    Int.floor ((stats.winRate * (6 / 10) + stats.avgStake / 100 * (4 / 10)) * 100)

/-- The combined state of the three stores, for the cross-store match
coordinator operations. -/
structure SysState where
  game : GameStoreState
  wallet : WalletState
  userState : UserState

/-- createMatch of the game store.  The authenticated userId and the
freshly generated uuid match id are explicit parameters.  It throws
insufficientFunds when the creator has no wallet or a total balance
below the stake (the available balance is not consulted), stores the
new match as pending, then invokes the wallet store's placeBet for the
creator against the activeMatches record, and returns the match id. -/
def createMatch (newMatchId userId : String) (matchData : MatchInput)
    (s : SysState) : Except GameError (String × SysState) :=
  match s.wallet.wallets userId with
  | none => .error .insufficientFunds
  | some w =>
    if w.balance < matchData.stakeAmount then .error .insufficientFunds
    else
      let m : Match :=
        { id := newMatchId, status := .pending, winner := ""
          player1Id := matchData.player1Id, player2Id := matchData.player2Id
          stakeAmount := matchData.stakeAmount
          player1Score := 0, player2Score := 0 }
      let g1 := { s.game with pendingMatches := s.game.pendingMatches.set newMatchId m }
      let w1 := placeBet g1.activeMatches userId newMatchId matchData.stakeAmount s.wallet
      .ok (newMatchId, { s with game := g1, wallet := w1 })

/-- joinMatch of the game store.  Throws matchNotFound when no pending
match has the id; throws insufficientFunds when the joiner has no
wallet or a total balance below the stake.  Otherwise it moves the
match from pending to active with player2 set and an empty readiness
set, then invokes placeBet for the joiner against the updated
activeMatches record. -/
def joinMatch (matchId playerId : String) (s : SysState) :
    Except GameError SysState :=
  match s.game.pendingMatches matchId with
  | none => .error .matchNotFound
  | some m =>
    match s.wallet.wallets playerId with
    | none => .error .insufficientFunds
    | some w =>
      if w.balance < m.stakeAmount then .error .insufficientFunds
      else
        let g1 :=
          { s.game with
            pendingMatches := s.game.pendingMatches.del matchId
            activeMatches := s.game.activeMatches.set matchId
              { m with player2Id := playerId, status := .active }
            playerReadyStatus := s.game.playerReadyStatus.set matchId [] }
        let w1 := placeBet g1.activeMatches playerId matchId m.stakeAmount s.wallet
        .ok { s with game := g1, wallet := w1 }

/-- endMatch of the game store.  Throws matchNotFound when the match is
not in activeMatches.  Otherwise marks it completed with the given
winner, moves it to matchHistory, drops it from activeMatches and
gameStates, then runs the wallet store's processPayout for the winner
and the user store's updateStats for winner and loser. -/
def endMatch (matchId winner : String) (s : SysState) :
    Except GameError SysState :=
  match s.game.activeMatches matchId with
  | none => .error .matchNotFound
  | some m =>
    let ended := { m with status := .completed, winner := winner }
    let g1 :=
      { s.game with
        matchHistory := s.game.matchHistory.set matchId ended
        activeMatches := s.game.activeMatches.del matchId
        gameStates := s.game.gameStates.del matchId }
    let w1 := processPayout matchId winner s.wallet
    let loserId := if winner = m.player1Id then m.player2Id else m.player1Id
    let u1 := updateStats winner { won := true, stake := m.stakeAmount } s.userState
    let u2 := updateStats loserId { won := false, stake := m.stakeAmount } u1
    .ok { game := g1, wallet := w1, userState := u2 }

/-- forfeitMatch of the game store: looks the match up in activeMatches
only, resolves the other player as winner and delegates to endMatch. -/
def forfeitMatch (matchId forfeitingPlayerId : String) (s : SysState) :
    Except GameError SysState :=
  match s.game.activeMatches matchId with
  | none => .error .matchNotFound
  | some m =>
    let winnerId :=
      if m.player1Id = forfeitingPlayerId then m.player2Id else m.player1Id
    endMatch matchId winnerId s

/-- leaveMatch of the game store: deletes the match from activeMatches
together with its game state and readiness record; it performs no
wallet or user store call at all. -/
def leaveMatch (matchId playerId : String) (s : SysState) : SysState :=
  { s with
    game :=
      { s.game with
        activeMatches := s.game.activeMatches.del matchId
        gameStates := s.game.gameStates.del matchId
        playerReadyStatus := s.game.playerReadyStatus.del matchId } }

/-- Every stored wallet has its locked balance bounded by its balance. -/
def WalletUpperInv (s : WalletState) : Prop :=
  ∀ u w, s.wallets u = some w → w.lockedBalance ≤ w.balance

/-- Every stored escrow holding has a non-negative amount. -/
def EscrowNonnegInv (s : WalletState) : Prop :=
  ∀ m e, s.escrowHoldings m = some e → 0 ≤ e.amount

/-- A ledger operation whose bet amount, if any, is non-negative. -/
def betAmountNonneg : LedgerOp → Prop
  | .placeBet _ _ a => 0 ≤ a
  | _ => True

instance : DecidablePred betAmountNonneg := fun op => by
  unfold betAmountNonneg
  cases op <;> infer_instance

/-- The cache-hit condition of fetchLeaderboard: a cached snapshot is
present and its expiry lies strictly after now. -/
def cacheValid (s : UserState) (now : Int) : Prop :=
  ∃ lb exp, s.cachedLeaderboard = some lb ∧
    s.cachedLeaderboardExpiry = some exp ∧ now < exp

/-- Drop the rank field of a leaderboard entry, keeping user and winRate. -/
def stripRank (e : LbEntry) : String × ℚ :=
  (e.userId, e.winRate)

/-- Example: a combined state whose only data is one wallet for user u1
holding balance 100 with nothing locked. -/
def c1Start : SysState :=
  { game := initialGameState
    wallet := { initialWalletState with
      wallets := StrMap.empty.set "u1" { balance := 100, lockedBalance := 0 } }
    userState := initialUserState }

/-- Example: matchData for a stake-40 match created by u1. -/
def c1Input : MatchInput :=
  { player1Id := "u1", player2Id := "", stakeAmount := 40 }

/-- Example: the result of u1 creating a stake-40 match. -/
def c1Result : Except GameError (String × SysState) :=
  createMatch "M" "u1" c1Input c1Start

/-- Example: the combined state right after that createMatch call. -/
def c1After : SysState :=
  ((c1Result.toOption).map Prod.snd).getD c1Start

/-- Example: an active match between players A and B with stake 40. -/
def mAB : Match :=
  { id := "M", status := .active, winner := "", player1Id := "A"
    player2Id := "B", stakeAmount := 40, player1Score := 0, player2Score := 0 }

/-- Example: the same match while still pending, before a second player. -/
def mPend : Match :=
  { mAB with status := .pending, player2Id := "" }

/-- Example: an activeMatches record holding only the A-versus-B match. -/
def amAB : StrMap Match :=
  StrMap.empty.set "M" mAB

/-- Example: a ledger operation sequence in which B places the only bet
on the A-versus-B match and the payout then goes to B. -/
def opsAB : List LedgerOp :=
  [.deposit "A" 100, .deposit "B" 100, .placeBet "B" "M" 40,
   .processPayout "M" "B"]

/-- Example: a wallet store in which A and B each hold 40 in escrow for
the A-versus-B match, as after both stakes were placed. -/
def c2State : WalletState :=
  { initialWalletState with
    wallets := (StrMap.empty.set "A" { balance := 100, lockedBalance := 40 }).set
      "B" { balance := 60, lockedBalance := 40 }
    escrowHoldings := StrMap.empty.set "M"
      { matchId := "M", amount := 40, player1Id := "A", player2Id := "B" } }

/-- Example: the escrow holding stored in that wallet store. -/
def escrowAB : EscrowHolding :=
  { matchId := "M", amount := 40, player1Id := "A", player2Id := "B" }

/-- Example: a combined state whose creator wallet has balance 100 of
which 80 is locked, leaving 20 available. -/
def c5Start : SysState :=
  { game := initialGameState
    wallet := { initialWalletState with
      wallets := StrMap.empty.set "u1" { balance := 100, lockedBalance := 80 } }
    userState := initialUserState }

/-- Example: a fresh user with zeroed counters. -/
def freshUser : User :=
  { wins := 0, losses := 0, totalMatches := 0, reputation := 100 }

/-- Example: a user store holding one fresh user A with zeroed stats. -/
def c6State : UserState :=
  { initialUserState with
    users := [("A", freshUser)]
    userStats := StrMap.empty.set "A" { rank := 0, winRate := 0, avgStake := 0 } }

/-- Example: a user store with users A, B, C inserted in that order,
whose stats records carry winRates 0.8, 0.8 and 0.5. -/
def abcState : UserState :=
  { initialUserState with
    users := [("A", { wins := 4, losses := 1, totalMatches := 5, reputation := 100 }),
              ("B", { wins := 4, losses := 1, totalMatches := 5, reputation := 100 }),
              ("C", { wins := 1, losses := 1, totalMatches := 2, reputation := 100 })]
    userStats := ((StrMap.empty.set "A" { rank := 0, winRate := 4 / 5, avgStake := 0 }).set
      "B" { rank := 0, winRate := 4 / 5, avgStake := 0 }).set
      "C" { rank := 0, winRate := 1 / 2, avgStake := 0 } }

/-- Example: a combined state holding only the pending A-versus-B match. -/
def c9Pending : SysState :=
  { game := { initialGameState with pendingMatches := StrMap.empty.set "M" mPend }
    wallet := initialWalletState
    userState := initialUserState }

/-- Example: a combined state holding the active A-versus-B match with
both stakes escrowed. -/
def c9Active : SysState :=
  { game := { initialGameState with activeMatches := amAB }
    wallet := c2State
    userState := initialUserState }

theorem StrMap.set_self {α : Type} (m : StrMap α) (k : String) (v : α) :
    m.set k v k = some v :=
  if_pos rfl

theorem StrMap.set_other {α : Type} (m : StrMap α) (k k2 : String) (v : α)
    (h : k2 ≠ k) : m.set k v k2 = m k2 :=
  if_neg h

theorem StrMap.del_self {α : Type} (m : StrMap α) (k : String) :
    m.del k k = none :=
  if_pos rfl

theorem StrMap.del_other {α : Type} (m : StrMap α) (k k2 : String)
    (h : k2 ≠ k) : m.del k k2 = m k2 :=
  if_neg h

theorem StrMap.adjust_self {α : Type} (m : StrMap α) (k : String) (f : α → α) :
    m.adjust k f k = (m k).map f :=
  if_pos rfl

theorem StrMap.adjust_other {α : Type} (m : StrMap α) (k k2 : String)
    (f : α → α) (h : k2 ≠ k) : m.adjust k f k2 = m k2 :=
  if_neg h

/-- C1: the claim says placeBet succeeds for every existing match,
pending or active, and that right after createMatch with stake 40 by a
user with balance 100 the escrow exists with amount 40 and the
creator's lockedBalance is 40.  The code contradicts its own
createMatch flow: placeBet resolves the match id in activeMatches only,
while the match createMatch has just stored is still pending, so the
creator's bet fails internally with the match-not-found error, the
lockedBalance stays 0 and no escrow holding is created, even though
createMatch itself reports success. -/
theorem c1_createMatch_escrow_bug :
    c1Start.wallet.wallets "u1" = some { balance := 100, lockedBalance := 0 } ∧
    c1Result.isOk = true ∧
    (c1After.game.pendingMatches "M").isSome = true ∧
    (c1After.wallet.wallets "u1").map Wallet.lockedBalance = some 0 ∧
    c1After.wallet.escrowHoldings "M" = none ∧
    c1After.wallet.error = some WalletError.matchNotFound := by
  refine ⟨?_, ?_, ?_, ?_, ?_, ?_⟩ <;>
    norm_num [c1After, c1Result, createMatch, placeBet, c1Start, c1Input,
      initialWalletState, initialGameState, initialUserState,
      StrMap.empty, StrMap.set, Except.toOption, Except.isOk, Except.toBool, Option.isSome]

/-- C5 counterexample: a creator whose wallet holds balance 100 with 80
locked has available funds 20, below the stake 40, yet createMatch
succeeds, because the code compares the stake against the total balance
rather than the available balance. -/
theorem c5_counterexample :
    c5Start.wallet.wallets "u1" = some { balance := 100, lockedBalance := 80 } ∧
    ((100 : ℚ) - 80 < 40) ∧
    (createMatch "M" "u1" c1Input c5Start).isOk = true := by
  refine ⟨?_, ?_, ?_⟩ <;>
    norm_num [createMatch, placeBet, c5Start, c1Input, initialWalletState,
      initialGameState, initialUserState, StrMap.empty, StrMap.set, Except.isOk, Except.toBool]

/-- C6 counterexample: updating stats of a fresh user with a won match
of stake 10 yields wins = 1 and totalMatches = 1, but the stored
winRate is 100, not wins / totalMatches = 1: the code stores winRate as
a percentage, (wins / totalMatches) * 100. -/
theorem c6_counterexample :
    (lookupUser (updateStats "A" { won := true, stake := 10 } c6State).users "A").map
      User.wins = some 1 ∧
    (lookupUser (updateStats "A" { won := true, stake := 10 } c6State).users "A").map
      User.totalMatches = some 1 ∧
    ((updateStats "A" { won := true, stake := 10 } c6State).userStats "A").map
      UStats.winRate = some 100 ∧
    ¬ ((100 : ℚ) = (1 : ℚ) / 1) := by
  refine ⟨?_, ?_, ?_, ?_⟩ <;>
    norm_num [updateStats, c6State, freshUser, lookupUser, updateUser,
      initialUserState, StrMap.empty, StrMap.set]

/-- C9 counterexample: a pending match exists under id M, yet
forfeitMatch fails with the match-not-found error, because the code
looks the match up in activeMatches only; the claim says every pending
or active match can be forfeited and MatchNotFound occurs only when no
such match exists. -/
theorem c9_counterexample :
    c9Pending.game.pendingMatches "M" = some mPend ∧
    mPend.status = MatchStatus.pending ∧
    forfeitMatch "M" "A" c9Pending = Except.error GameError.matchNotFound := by
  refine ⟨?_, rfl, rfl⟩
  norm_num [c9Pending, initialGameState, StrMap.empty, StrMap.set]

theorem processPayout_noEscrow (matchId winnerId : String) (s : WalletState)
    (h : s.escrowHoldings matchId = none) :
    processPayout matchId winnerId s = { s with error := some .noEscrowFound } := by
  unfold processPayout
  rw [h]

/-- C2: for every match with an escrow holding of per-player amount a
and both recorded wallets present, processPayout computes
winnings + platformFee = 2 * a, decreases the winner's and the loser's
lockedBalance by exactly a, credits the winner's balance by the
winnings, removes the escrow holding and appends a completed win
transaction for the winner. -/
theorem c2_processPayout_conservation (s : WalletState) (matchId winnerId : String)
    (e : EscrowHolding) (ww wl : Wallet)
    (he : s.escrowHoldings matchId = some e)
    (hw : s.wallets winnerId = some ww)
    (hl : s.wallets (payoutLoser e winnerId) = some wl)
    (hne : payoutLoser e winnerId ≠ winnerId) :
    (e.amount * 2 - e.amount * 2 * PLATFORM_FEE_PERCENTAGE) +
        e.amount * 2 * PLATFORM_FEE_PERCENTAGE = 2 * e.amount ∧
    (processPayout matchId winnerId s).wallets winnerId =
      some { balance := ww.balance + (e.amount * 2 - e.amount * 2 * PLATFORM_FEE_PERCENTAGE)
             lockedBalance := ww.lockedBalance - e.amount } ∧
    (processPayout matchId winnerId s).wallets (payoutLoser e winnerId) =
      some { wl with lockedBalance := wl.lockedBalance - e.amount } ∧
    (processPayout matchId winnerId s).escrowHoldings matchId = none ∧
    (processPayout matchId winnerId s).transactionHistory =
      { userId := winnerId, amount := e.amount * 2 - e.amount * 2 * PLATFORM_FEE_PERCENTAGE
        txType := TxType.win, status := TxStatus.completed, matchId := some matchId } ::
        s.transactionHistory := by
  have hm1 : (s.wallets.adjust winnerId
      (fun w => { w with lockedBalance := w.lockedBalance - e.amount }))
      (payoutLoser e winnerId) = some wl := by
    rw [StrMap.adjust_other _ _ _ _ hne, hl]
  refine ⟨by ring, ?_, ?_, ?_, ?_⟩ <;>
    simp [processPayout, he, hw, hm1, StrMap.adjust_self, StrMap.adjust_other,
      StrMap.del_self, hne, Ne.symm hne]

/-- C2 witness: in the two-player state with escrow amount 40 and both
wallets present, the successful payout removes the escrow holding. -/
theorem c2_witness : (processPayout "M" "A" c2State).escrowHoldings "M" = none :=
  (c2_processPayout_conservation c2State "M" "A" escrowAB
    { balance := 100, lockedBalance := 40 } { balance := 60, lockedBalance := 40 }
    (by norm_num [c2State, escrowAB, initialWalletState, StrMap.set, StrMap.empty])
    (by norm_num [c2State, initialWalletState, StrMap.set, StrMap.empty]; decide)
    (by norm_num [c2State, escrowAB, payoutLoser, initialWalletState, StrMap.set,
      StrMap.empty])
    (by norm_num [escrowAB, payoutLoser]; decide)).2.2.2.1

/-- C3: after a successful processPayout for a match, a second call for
the same match id fails with the no-escrow-found error (the first call
removed the holding) and leaves every wallet, every escrow holding and
the transaction history unchanged. -/
theorem c3_no_double_settlement (s : WalletState) (matchId winnerId : String)
    (e : EscrowHolding) (ww wl : Wallet)
    (he : s.escrowHoldings matchId = some e)
    (hw : s.wallets winnerId = some ww)
    (hl : s.wallets (payoutLoser e winnerId) = some wl) :
    (processPayout matchId winnerId (processPayout matchId winnerId s)).error =
      some WalletError.noEscrowFound ∧
    (processPayout matchId winnerId (processPayout matchId winnerId s)).wallets =
      (processPayout matchId winnerId s).wallets ∧
    (processPayout matchId winnerId (processPayout matchId winnerId s)).escrowHoldings =
      (processPayout matchId winnerId s).escrowHoldings ∧
    (processPayout matchId winnerId (processPayout matchId winnerId s)).transactionHistory =
      (processPayout matchId winnerId s).transactionHistory := by
  have hgone : (processPayout matchId winnerId s).escrowHoldings matchId = none := by
    by_cases hc : payoutLoser e winnerId = winnerId
    · have hm1 : (s.wallets.adjust winnerId
          (fun w => { w with lockedBalance := w.lockedBalance - e.amount }))
          (payoutLoser e winnerId) =
          some { ww with lockedBalance := ww.lockedBalance - e.amount } := by
        rw [hc, StrMap.adjust_self, hw]
        rfl
      simp [processPayout, he, hw, hm1, StrMap.del_self]
    · have hm1 : (s.wallets.adjust winnerId
          (fun w => { w with lockedBalance := w.lockedBalance - e.amount }))
          (payoutLoser e winnerId) = some wl := by
        rw [StrMap.adjust_other _ _ _ _ hc, hl]
      simp [processPayout, he, hw, hm1, StrMap.del_self]
  rw [processPayout_noEscrow _ _ _ hgone]
  exact ⟨rfl, rfl, rfl, rfl⟩

/-- C3 witness: in the two-player state with escrow amount 40, the
second payout call reports the no-escrow-found error. -/
theorem c3_witness :
    (processPayout "M" "A" (processPayout "M" "A" c2State)).error =
      some WalletError.noEscrowFound :=
  (c3_no_double_settlement c2State "M" "A" escrowAB
    { balance := 100, lockedBalance := 40 } { balance := 60, lockedBalance := 40 }
    (by norm_num [c2State, escrowAB, initialWalletState, StrMap.set, StrMap.empty])
    (by norm_num [c2State, initialWalletState, StrMap.set, StrMap.empty]; decide)
    (by norm_num [c2State, escrowAB, payoutLoser, initialWalletState, StrMap.set,
      StrMap.empty])).1

theorem lookupUser_updateUser (l : List (String × User)) (k : String)
    (v u : User) (h : lookupUser l k = some u) :
    lookupUser (updateUser l k v) k = some v := by
  induction l with
  | nil => simp [lookupUser] at h
  | cons p rest ih =>
    obtain ⟨k1, u1⟩ := p
    by_cases hk : k1 = k
    · simp [lookupUser, updateUser, hk]
    · simp only [lookupUser, updateUser, hk, if_false, if_neg hk] at h ⊢
      exact ih h

/-- C5 corrected: createMatch fails with the insufficient-funds error
exactly when the creator's wallet is missing or its total balance is
below the stake, and joinMatch fails with it exactly when a pending
match with the id exists and the joiner's wallet is missing or its
total balance is below that match's stake; the available balance
(balance - lockedBalance) is never consulted by either guard. -/
theorem c5_balance_guard (s : SysState) (newMatchId userId matchId playerId : String)
    (matchData : MatchInput) :
    (createMatch newMatchId userId matchData s = .error .insufficientFunds ↔
      ∀ w, s.wallet.wallets userId = some w → w.balance < matchData.stakeAmount) ∧
    (joinMatch matchId playerId s = .error .insufficientFunds ↔
      ∃ m, s.game.pendingMatches matchId = some m ∧
        ∀ w, s.wallet.wallets playerId = some w → w.balance < m.stakeAmount) := by
  constructor
  · cases hw : s.wallet.wallets userId with
    | none => simp [createMatch, hw]
    | some w =>
      by_cases hlt : w.balance < matchData.stakeAmount
      · simp [createMatch, hw, hlt]
      · simp [createMatch, hw, hlt]
  · cases hm : s.game.pendingMatches matchId with
    | none => simp [joinMatch, hm]
    | some m =>
      cases hw : s.wallet.wallets playerId with
      | none => simp [joinMatch, hm, hw]
      | some w =>
        by_cases hlt : w.balance < m.stakeAmount
        · simp [joinMatch, hm, hw, hlt]
        · simp [joinMatch, hm, hw, hlt]

/-- C6 corrected: for a known user, updateStats increments wins on a
win and losses otherwise, increments totalMatches, stores
winRate = (wins / totalMatches) * 100 (a percentage, not the bare
ratio) and stores avgStake as the running mean over the new
totalMatches count. -/
theorem c6_updateStats_formulas (s : UserState) (userId : String)
    (mr : MatchResult) (u : User)
    (hu : lookupUser s.users userId = some u) :
    lookupUser (updateStats userId mr s).users userId = some
      { u with wins := u.wins + (if mr.won then 1 else 0)
               losses := u.losses + (if mr.won then 0 else 1)
               totalMatches := u.totalMatches + 1 } ∧
    (updateStats userId mr s).userStats userId = some
      { rank := ((s.userStats userId).getD { rank := 0, winRate := 0, avgStake := 0 }).rank
        winRate := (((u.wins + (if mr.won then 1 else 0) : Nat) : ℚ) /
          ((u.totalMatches + 1 : Nat) : ℚ)) * 100
        avgStake := (((s.userStats userId).getD
            { rank := 0, winRate := 0, avgStake := 0 }).avgStake *
            (((u.totalMatches + 1 : Nat) : ℚ) - 1) + mr.stake) /
          ((u.totalMatches + 1 : Nat) : ℚ) } := by
  unfold updateStats
  rw [hu]
  exact ⟨lookupUser_updateUser _ _ _ _ hu, StrMap.set_self _ _ _⟩

/-- C6 witness: applying the corrected formulas to a fresh user with a
won stake-10 match yields the running-mean average stake 10. -/
theorem c6_witness :
    ((updateStats "A" { won := true, stake := 10 } c6State).userStats "A").map
      UStats.avgStake = some 10 := by
  have h := (c6_updateStats_formulas c6State "A" { won := true, stake := 10 }
    freshUser (by norm_num [c6State, initialUserState, lookupUser])).2
  rw [h]
  norm_num [c6State, initialUserState, freshUser, StrMap.set, StrMap.empty]

/-- C9 corrected: forfeitMatch resolves only matches in the active set:
for every active match it succeeds, moving the match to the history as
completed with the non-forfeiting player as winner and removing it from
the active set, and it fails with the match-not-found error whenever no
active match has the id, even when a pending match does. -/
theorem c9_forfeit_active_only (s : SysState) (matchId pid : String) (m : Match)
    (hm : s.game.activeMatches matchId = some m) :
    (∃ s', forfeitMatch matchId pid s = .ok s' ∧
      s'.game.activeMatches matchId = none ∧
      s'.game.matchHistory matchId = some
        { m with status := .completed
                 winner := if m.player1Id = pid then m.player2Id else m.player1Id }) ∧
    (∀ s2 : SysState, s2.game.activeMatches matchId = none →
      forfeitMatch matchId pid s2 = .error .matchNotFound) := by
  constructor
  · unfold forfeitMatch endMatch
    rw [hm]
    refine ⟨_, rfl, ?_, ?_⟩
    · exact StrMap.del_self _ _
    · exact StrMap.set_self _ _ _
  · intro s2 h2
    unfold forfeitMatch
    rw [h2]

/-- C9 witness: with the active A-versus-B match the second part of the
corrected statement applies to the state that has only a pending match,
reproducing the match-not-found failure. -/
theorem c9_witness :
    forfeitMatch "M" "A" c9Pending = .error GameError.matchNotFound :=
  (c9_forfeit_active_only c9Active "M" "A" mAB rfl).2 c9Pending rfl

theorem insertByWinRate_perm (x : LbEntry) (l : List LbEntry) :
    List.Perm (insertByWinRate x l) (x :: l) := by
  induction l with
  | nil => exact List.Perm.refl _
  | cons y ys ih =>
    by_cases h : y.winRate ≤ x.winRate
    · simp [insertByWinRate, h]
    · simp only [insertByWinRate, h, if_false]
      exact (ih.cons y).trans (List.Perm.swap x y ys)

theorem sortByWinRateDesc_perm (l : List LbEntry) :
    List.Perm (sortByWinRateDesc l) l := by
  induction l with
  | nil => exact List.Perm.refl _
  | cons x xs ih => exact (insertByWinRate_perm x _).trans (ih.cons x)

theorem insertByWinRate_pairwise (x : LbEntry) (l : List LbEntry)
    (hl : l.Pairwise (fun a b => b.winRate ≤ a.winRate)) :
    (insertByWinRate x l).Pairwise (fun a b => b.winRate ≤ a.winRate) := by
  induction l with
  | nil => simp [insertByWinRate]
  | cons y ys ih =>
    rcases List.pairwise_cons.mp hl with ⟨hy, hys⟩
    by_cases h : y.winRate ≤ x.winRate
    · simp only [insertByWinRate, if_pos h]
      refine List.pairwise_cons.mpr ⟨?_, hl⟩
      intro z hz
      rcases List.mem_cons.mp hz with rfl | hz
      · exact h
      · exact (hy z hz).trans h
    · simp only [insertByWinRate, if_neg h]
      refine List.pairwise_cons.mpr ⟨?_, ih hys⟩
      intro z hz
      rcases List.mem_cons.mp ((insertByWinRate_perm x ys).mem_iff.mp hz) with rfl | hz
      · exact le_of_not_le h
      · exact hy z hz

theorem sortByWinRateDesc_pairwise (l : List LbEntry) :
    (sortByWinRateDesc l).Pairwise (fun a b => b.winRate ≤ a.winRate) := by
  induction l with
  | nil => simp [sortByWinRateDesc]
  | cons x xs ih => exact insertByWinRate_pairwise x _ ih

theorem insertByWinRate_cons_le (x y : LbEntry) (ys : List LbEntry)
    (h : y.winRate ≤ x.winRate) :
    insertByWinRate x (y :: ys) = x :: y :: ys := by
  simp [insertByWinRate, h]

theorem insertByWinRate_cons_gt (x y : LbEntry) (ys : List LbEntry)
    (h : ¬ y.winRate ≤ x.winRate) :
    insertByWinRate x (y :: ys) = y :: insertByWinRate x ys := by
  simp [insertByWinRate, h]

theorem insertByWinRate_filter (x : LbEntry) (l : List LbEntry) (w : ℚ) :
    (insertByWinRate x l).filter (fun e => decide (e.winRate = w)) =
      if x.winRate = w then x :: l.filter (fun e => decide (e.winRate = w))
      else l.filter (fun e => decide (e.winRate = w)) := by
  induction l with
  | nil =>
    by_cases hx : x.winRate = w <;> simp [insertByWinRate, List.filter_cons, hx]
  | cons y ys ih =>
    by_cases h : y.winRate ≤ x.winRate
    · rw [insertByWinRate_cons_le x y ys h]
      simp only [List.filter_cons, decide_eq_true_eq]
    · rw [insertByWinRate_cons_gt x y ys h, List.filter_cons, ih, List.filter_cons]
      simp only [decide_eq_true_eq]
      split_ifs with h1 h2 <;>
        first
          | rfl
          | exact absurd (le_of_eq (h1.trans h2.symm)) h

theorem sortByWinRateDesc_filter (l : List LbEntry) (w : ℚ) :
    (sortByWinRateDesc l).filter (fun e => decide (e.winRate = w)) =
      l.filter (fun e => decide (e.winRate = w)) := by
  induction l with
  | nil => rfl
  | cons x xs ih =>
    simp only [sortByWinRateDesc]
    rw [insertByWinRate_filter]
    by_cases hx : x.winRate = w <;> simp [hx, ih, List.filter_cons]

theorem assignRanks_map_stripRank (i : Nat) (l : List LbEntry) :
    (assignRanks i l).map stripRank = l.map stripRank := by
  induction l generalizing i with
  | nil => rfl
  | cons x xs ih => simp [assignRanks, stripRank, ih]

theorem assignRanks_map_rank (i : Nat) (l : List LbEntry) :
    (assignRanks i l).map LbEntry.rank =
      (List.range' (i + 1) l.length).map (fun n => (n : ℚ)) := by
  induction l generalizing i with
  | nil => rfl
  | cons x xs ih =>
    simp [assignRanks, List.range', ih]

theorem fetchLeaderboard_recompute_of_miss (now : Int) (s : UserState)
    (h : ¬ cacheValid s now) :
    fetchLeaderboard now s = recomputeLeaderboard now s := by
  unfold fetchLeaderboard
  cases hc1 : s.cachedLeaderboard with
  | none => rfl
  | some lb =>
    cases hc2 : s.cachedLeaderboardExpiry with
    | none => rfl
    | some exp =>
      dsimp only
      rw [if_neg]
      intro hlt
      exact h ⟨lb, exp, hc1, hc2, hlt⟩

theorem fetchLeaderboard_hit (now : Int) (s : UserState) (lb : List LbEntry)
    (exp : Int) (h1 : s.cachedLeaderboard = some lb)
    (h2 : s.cachedLeaderboardExpiry = some exp) (hlt : now < exp) :
    fetchLeaderboard now s = (lb, s) := by
  unfold fetchLeaderboard
  rw [h1, h2]
  dsimp only
  rw [if_pos hlt]

/-- C7: when the leaderboard cache is absent or expired,
fetchLeaderboard recomputes the board: the result is the user entries
sorted by winRate descending (adjacent-pairwise non-increasing), a
permutation of the entries built from the user set, stable (for every
winRate value the sub-list of entries having it keeps the insertion
order of the user set), and carries ranks 1, 2, ..., n in order; in
particular for users A (winRate 0.8), B (winRate 0.8), C (winRate 0.5)
inserted in that order it ranks A=1, B=2, C=3. -/
theorem c7_leaderboard_sort (s : UserState) (now : Int)
    (h : ¬ cacheValid s now) :
    ((fetchLeaderboard now s).1.map stripRank).Pairwise (fun a b => b.2 ≤ a.2) ∧
    List.Perm ((fetchLeaderboard now s).1.map stripRank)
      ((lbEntries s).map stripRank) ∧
    (∀ w : ℚ, ((fetchLeaderboard now s).1.map stripRank).filter
        (fun p => decide (p.2 = w)) =
      ((lbEntries s).map stripRank).filter (fun p => decide (p.2 = w))) ∧
    (fetchLeaderboard now s).1.map LbEntry.rank =
      (List.range' 1 (lbEntries s).length).map (fun n => (n : ℚ)) ∧
    (fetchLeaderboard 0 abcState).1 =
      [{ userId := "A", rank := 1, winRate := 4 / 5 },
       { userId := "B", rank := 2, winRate := 4 / 5 },
       { userId := "C", rank := 3, winRate := 1 / 2 }] := by
  rw [fetchLeaderboard_recompute_of_miss now s h]
  have hfst : (recomputeLeaderboard now s).1 =
      assignRanks 0 (sortByWinRateDesc (lbEntries s)) := rfl
  rw [hfst]
  refine ⟨?_, ?_, ?_, ?_, ?_⟩
  · rw [assignRanks_map_stripRank]
    exact (List.pairwise_map).mpr (sortByWinRateDesc_pairwise (lbEntries s))
  · rw [assignRanks_map_stripRank]
    exact (sortByWinRateDesc_perm (lbEntries s)).map stripRank
  · intro w
    rw [assignRanks_map_stripRank, List.filter_map, List.filter_map]
    exact congrArg (List.map stripRank) (sortByWinRateDesc_filter (lbEntries s) w)
  · rw [assignRanks_map_rank, (sortByWinRateDesc_perm (lbEntries s)).length_eq]
  · simp [fetchLeaderboard, recomputeLeaderboard, abcState, initialUserState,
      lbEntries, StrMap.set, StrMap.empty]
    norm_num [sortByWinRateDesc, insertByWinRate, assignRanks]

/-- C7 witness: the corrected recompute applied to the A, B, C state at
time 0 (no cache present) yields ranks 1, 2, 3 in insertion order. -/
theorem c7_witness :
    (fetchLeaderboard 0 abcState).1 =
      [{ userId := "A", rank := 1, winRate := 4 / 5 },
       { userId := "B", rank := 2, winRate := 4 / 5 },
       { userId := "C", rank := 3, winRate := 1 / 2 }] :=
  (c7_leaderboard_sort abcState 0 (by
    rintro ⟨lb, e2, hlb, h2, h3⟩
    simp [abcState, initialUserState] at hlb)).2.2.2.2

/-- C8: after a fetchLeaderboard call that populates the cache at time
t0, any second call at a time strictly before t0 plus the five-minute
duration, on a state whose two cache fields are unchanged (no
intervening clearCache), returns the exact cached snapshot of the first
call and leaves the state untouched. -/
theorem c8_cache_idempotent (s0 s2 : UserState) (t0 t1 : Int)
    (r1 : List LbEntry) (s1 : UserState)
    (hmiss : ¬ cacheValid s0 t0)
    (h1 : fetchLeaderboard t0 s0 = (r1, s1))
    (hca : s2.cachedLeaderboard = s1.cachedLeaderboard)
    (hcb : s2.cachedLeaderboardExpiry = s1.cachedLeaderboardExpiry)
    (ht : t1 < t0 + LEADERBOARD_CACHE_DURATION) :
    fetchLeaderboard t1 s2 = (r1, s2) := by
  rw [fetchLeaderboard_recompute_of_miss t0 s0 hmiss] at h1
  have hs1a : s1.cachedLeaderboard = some r1 := by
    have h2 := congrArg (fun p => p.2.cachedLeaderboard) h1
    have h3 := congrArg Prod.fst h1
    simp only [recomputeLeaderboard] at h2 h3
    rw [← h2, ← h3]
  have hs1b : s1.cachedLeaderboardExpiry = some (t0 + LEADERBOARD_CACHE_DURATION) := by
    have h2 := congrArg (fun p => p.2.cachedLeaderboardExpiry) h1
    simp only [recomputeLeaderboard] at h2
    rw [← h2]
  exact fetchLeaderboard_hit t1 s2 r1 (t0 + LEADERBOARD_CACHE_DURATION)
    (hca.trans hs1a) (hcb.trans hs1b) ht

/-- C8 witness: fetching at time 0 on the A, B, C state and again at
time 1 returns the identical snapshot with the state unchanged. -/
theorem c8_witness :
    fetchLeaderboard 1 (fetchLeaderboard 0 abcState).2 =
      ((fetchLeaderboard 0 abcState).1, (fetchLeaderboard 0 abcState).2) :=
  c8_cache_idempotent abcState (fetchLeaderboard 0 abcState).2 0 1
    (fetchLeaderboard 0 abcState).1 (fetchLeaderboard 0 abcState).2
    (by
      rintro ⟨lb, e2, hlb, h2, h3⟩
      simp [abcState, initialUserState] at hlb)
    rfl rfl rfl (by norm_num [LEADERBOARD_CACHE_DURATION])

theorem deposit_of_pos (userId : String) (amount : ℚ) (s : WalletState)
    (h : ¬ amount ≤ 0) :
    deposit userId amount s =
      { s with
        error := none
        wallets := s.wallets.set userId
          { balance := ((s.wallets userId).getD { balance := 0, lockedBalance := 0 }).balance + amount
            lockedBalance := ((s.wallets userId).getD { balance := 0, lockedBalance := 0 }).lockedBalance }
        pendingTransactions :=
          { userId := userId, amount := amount, txType := TxType.deposit
            status := TxStatus.pending, matchId := none } :: s.pendingTransactions
        transactionHistory :=
          { userId := userId, amount := amount, txType := TxType.deposit
            status := TxStatus.completed, matchId := none } :: s.transactionHistory } := by
  unfold deposit
  rw [if_neg h]

theorem placeBet_success (am : StrMap Match) (userId matchId : String)
    (amount : ℚ) (s : WalletState) (w : Wallet) (m : Match)
    (hw : s.wallets userId = some w)
    (hguard : ¬ (w.balance - w.lockedBalance < amount))
    (hm : am matchId = some m) :
    placeBet am userId matchId amount s =
      { s with
        error := none
        wallets := s.wallets.set userId
          { w with lockedBalance := w.lockedBalance + amount }
        escrowHoldings := s.escrowHoldings.set matchId
          { matchId := matchId, amount := amount
            player1Id := m.player1Id, player2Id := m.player2Id }
        transactionHistory :=
          { userId := userId, amount := amount, txType := TxType.bet
            status := TxStatus.completed, matchId := some matchId } ::
            s.transactionHistory } := by
  unfold placeBet
  rw [hw]
  dsimp only
  rw [if_neg hguard, hm]

theorem deposit_inv (userId : String) (amount : ℚ) (s : WalletState)
    (h1 : WalletUpperInv s) (h2 : EscrowNonnegInv s) :
    WalletUpperInv (deposit userId amount s) ∧
      EscrowNonnegInv (deposit userId amount s) := by
  unfold deposit
  split
  · exact ⟨h1, h2⟩
  · rename_i hneg
    refine ⟨?_, h2⟩
    intro u w hu
    dsimp only at hu
    by_cases hc : u = userId
    · subst hc
      rw [StrMap.set_self] at hu
      cases hu
      cases hs : s.wallets u with
      | none => simp [hs]; linarith
      | some w0 =>
        have := h1 u w0 hs
        simp [hs]
        linarith
    · rw [StrMap.set_other _ _ _ _ hc] at hu
      exact h1 u w hu

theorem withdraw_inv (userId : String) (amount : ℚ) (s : WalletState)
    (h1 : WalletUpperInv s) (h2 : EscrowNonnegInv s) :
    WalletUpperInv (withdraw userId amount s) ∧
      EscrowNonnegInv (withdraw userId amount s) := by
  unfold withdraw
  cases hs : s.wallets userId with
  | none => exact ⟨h1, h2⟩
  | some w0 =>
    dsimp only
    split
    · exact ⟨h1, h2⟩
    · rename_i hguard
      refine ⟨?_, h2⟩
      intro u w hu
      dsimp only at hu
      by_cases hc : u = userId
      · subst hc
        rw [StrMap.set_self] at hu
        cases hu
        dsimp only
        linarith
      · rw [StrMap.set_other _ _ _ _ hc] at hu
        exact h1 u w hu

theorem placeBet_inv (am : StrMap Match) (userId matchId : String) (amount : ℚ)
    (s : WalletState) (hamt : 0 ≤ amount)
    (h1 : WalletUpperInv s) (h2 : EscrowNonnegInv s) :
    WalletUpperInv (placeBet am userId matchId amount s) ∧
      EscrowNonnegInv (placeBet am userId matchId amount s) := by
  unfold placeBet
  cases hs : s.wallets userId with
  | none => exact ⟨h1, h2⟩
  | some w0 =>
    dsimp only
    split
    · exact ⟨h1, h2⟩
    · rename_i hguard
      cases hm : am matchId with
      | none => exact ⟨h1, h2⟩
      | some m =>
        dsimp only
        constructor
        · intro u w hu
          dsimp only at hu
          by_cases hc : u = userId
          · subst hc
            rw [StrMap.set_self] at hu
            cases hu
            dsimp only
            have := h1 u w0 hs
            linarith
          · rw [StrMap.set_other _ _ _ _ hc] at hu
            exact h1 u w hu
        · intro m2 e2 he2
          dsimp only at he2
          by_cases hc : m2 = matchId
          · subst hc
            rw [StrMap.set_self] at he2
            cases he2
            exact hamt
          · rw [StrMap.set_other _ _ _ _ hc] at he2
            exact h2 m2 e2 he2

theorem processPayout_inv (matchId winnerId : String) (s : WalletState)
    (h1 : WalletUpperInv s) (h2 : EscrowNonnegInv s) :
    WalletUpperInv (processPayout matchId winnerId s) ∧
      EscrowNonnegInv (processPayout matchId winnerId s) := by
  unfold processPayout
  cases hesc : s.escrowHoldings matchId with
  | none => exact ⟨h1, h2⟩
  | some e =>
    dsimp only
    have ha : 0 ≤ e.amount := h2 _ _ hesc
    have hwin : 0 ≤ e.amount * 2 - e.amount * 2 * PLATFORM_FEE_PERCENTAGE := by
      unfold PLATFORM_FEE_PERCENTAGE
      linarith
    cases hw : s.wallets winnerId with
    | none => exact ⟨h1, h2⟩
    | some ww =>
      dsimp only
      cases hm1 : (s.wallets.adjust winnerId
          (fun w => { w with lockedBalance := w.lockedBalance - e.amount }))
          (payoutLoser e winnerId) with
      | none => exact ⟨h1, h2⟩
      | some wl =>
        dsimp only
        constructor
        · intro u w hu
          dsimp only at hu
          simp only [StrMap.adjust, hw, Option.map_some'] at hu
          split_ifs at hu with hc1 hc2 hc3 hc4 hc5
          · simp only [Option.map_some'] at hu
            injection hu with hu
            subst hu
            dsimp only
            have hb := h1 winnerId ww hw
            linarith
          · exact absurd hc2.symm hc3
          · simp only [Option.map_some'] at hu
            injection hu with hu
            subst hu
            dsimp only
            have hb := h1 winnerId ww hw
            linarith
          · exact absurd (hc4.trans hc5) hc1
          · obtain ⟨w0, hw0, hfw⟩ := Option.map_eq_some'.mp hu
            subst hfw
            dsimp only
            have hb := h1 _ _ hw0
            linarith
          · exact h1 u w hu
        · intro m2 e2 he2
          dsimp only at he2
          simp only [StrMap.del] at he2
          split_ifs at he2 with hc
          exact h2 m2 e2 he2

theorem applyLedgerOp_inv (am : StrMap Match) (op : LedgerOp) (s : WalletState)
    (hop : betAmountNonneg op) (h1 : WalletUpperInv s) (h2 : EscrowNonnegInv s) :
    WalletUpperInv (applyLedgerOp am op s) ∧
      EscrowNonnegInv (applyLedgerOp am op s) := by
  cases op with
  | deposit u a => exact deposit_inv u a s h1 h2
  | withdraw u a => exact withdraw_inv u a s h1 h2
  | placeBet u m a => exact placeBet_inv am u m a s hop h1 h2
  | processPayout m w => exact processPayout_inv m w s h1 h2

theorem runLedgerOps_inv (am : StrMap Match) (ops : List LedgerOp) (s : WalletState)
    (hops : ∀ op ∈ ops, betAmountNonneg op)
    (h1 : WalletUpperInv s) (h2 : EscrowNonnegInv s) :
    WalletUpperInv (runLedgerOps am ops s) ∧
      EscrowNonnegInv (runLedgerOps am ops s) := by
  induction ops generalizing s with
  | nil => exact ⟨h1, h2⟩
  | cons op rest ih =>
    have hstep := applyLedgerOp_inv am op s (hops op (List.mem_cons_self op rest)) h1 h2
    exact ih (applyLedgerOp am op s) (fun o ho => hops o (List.mem_cons_of_mem op ho))
      hstep.1 hstep.2

/-- C4 amended: for every sequence of ledger operations whose placeBet
amounts are non-negative, run from the empty wallet store, every wallet
always satisfies lockedBalance <= balance; the claimed lower bound
0 <= lockedBalance does not hold in general, since processPayout
releases escrow from recorded players who never placed a bet. -/
theorem c4_upper_invariant (am : StrMap Match) (ops : List LedgerOp)
    (hops : ∀ op ∈ ops, betAmountNonneg op) :
    ∀ u w, (runLedgerOps am ops initialWalletState).wallets u = some w →
      w.lockedBalance ≤ w.balance := by
  have hinit1 : WalletUpperInv initialWalletState := by
    intro u w hw
    exact absurd hw (by simp [initialWalletState, StrMap.empty])
  have hinit2 : EscrowNonnegInv initialWalletState := by
    intro m e he
    exact absurd he (by simp [initialWalletState, StrMap.empty])
  exact (runLedgerOps_inv am ops initialWalletState hops hinit1 hinit2).1

/-- C4 witness: a single positive deposit from the empty store leaves
user A with the wallet balance 100, lockedBalance 0, and the invariant
instance lockedBalance <= balance holds there. -/
theorem c4_witness :
    (∀ op ∈ [LedgerOp.deposit "A" 100], betAmountNonneg op) ∧
    ({ balance := 100, lockedBalance := 0 } : Wallet).lockedBalance ≤
      ({ balance := 100, lockedBalance := 0 } : Wallet).balance := by
  refine ⟨by norm_num [betAmountNonneg], ?_⟩
  refine c4_upper_invariant amAB [LedgerOp.deposit "A" 100]
    (by norm_num [betAmountNonneg]) "A" { balance := 100, lockedBalance := 0 } ?_
  have hrun1 : runLedgerOps amAB [LedgerOp.deposit "A" 100] initialWalletState =
      deposit "A" 100 initialWalletState := rfl
  rw [hrun1, deposit_of_pos _ _ _ (by norm_num)]
  dsimp only
  rw [StrMap.set_self]
  norm_num [initialWalletState, StrMap.empty]

/-- C4 counterexample: the ledger-operation sequence deposit A 100,
deposit B 100, placeBet B M 40, processPayout M B, run from the empty
wallet store against the active A-versus-B match, leaves wallet A with
lockedBalance -40: processPayout releases escrow for recorded player A
although A never placed a bet, so the claimed invariant
0 <= lockedBalance fails on a reachable state. -/
theorem c4_counterexample :
    ((runLedgerOps amAB opsAB initialWalletState).wallets "A").map
      Wallet.lockedBalance = some (-40) ∧
    ¬ ((0 : ℚ) ≤ (-40 : ℚ)) := by
  refine ⟨?_, by norm_num⟩
  have hrun : runLedgerOps amAB opsAB initialWalletState =
      processPayout "M" "B" (placeBet amAB "B" "M" 40
        (deposit "B" 100 (deposit "A" 100 initialWalletState))) := rfl
  rw [hrun]
  have h1A : (deposit "A" 100 initialWalletState).wallets "A" =
      some { balance := 100, lockedBalance := 0 } := by
    rw [deposit_of_pos _ _ _ (by norm_num)]
    dsimp only
    rw [StrMap.set_self]
    norm_num [initialWalletState, StrMap.empty]
  have h1B : (deposit "A" 100 initialWalletState).wallets "B" = none := by
    rw [deposit_of_pos _ _ _ (by norm_num)]
    dsimp only
    rw [StrMap.set_other _ _ _ _ (by decide)]
    rfl
  have h2B : (deposit "B" 100 (deposit "A" 100 initialWalletState)).wallets "B" =
      some { balance := 100, lockedBalance := 0 } := by
    rw [deposit_of_pos "B" _ _ (by norm_num)]
    dsimp only
    rw [StrMap.set_self]
    norm_num [h1B]
  have h2A : (deposit "B" 100 (deposit "A" 100 initialWalletState)).wallets "A" =
      some { balance := 100, lockedBalance := 0 } := by
    rw [deposit_of_pos "B" _ _ (by norm_num)]
    dsimp only
    rw [StrMap.set_other _ _ _ _ (by decide), h1A]
  have e3 := placeBet_success amAB "B" "M" 40
    (deposit "B" 100 (deposit "A" 100 initialWalletState))
    { balance := 100, lockedBalance := 0 } mAB h2B (by norm_num)
    (StrMap.set_self _ _ _)
  have h3A : (placeBet amAB "B" "M" 40
      (deposit "B" 100 (deposit "A" 100 initialWalletState))).wallets "A" =
      some { balance := 100, lockedBalance := 0 } := by
    rw [e3]
    dsimp only
    rw [StrMap.set_other _ _ _ _ (by decide), h2A]
  have h3B : (placeBet amAB "B" "M" 40
      (deposit "B" 100 (deposit "A" 100 initialWalletState))).wallets "B" =
      some { balance := 100, lockedBalance := 40 } := by
    rw [e3]
    dsimp only
    rw [StrMap.set_self]
    norm_num
  have h3esc : (placeBet amAB "B" "M" 40
      (deposit "B" 100 (deposit "A" 100 initialWalletState))).escrowHoldings "M" =
      some { matchId := "M", amount := 40, player1Id := "A", player2Id := "B" } := by
    rw [e3]
    dsimp only
    rw [StrMap.set_self]
    norm_num [mAB]
  have hm1 : ∀ g : Wallet → Wallet,
      ((placeBet amAB "B" "M" 40
        (deposit "B" 100 (deposit "A" 100 initialWalletState))).wallets.adjust "B" g)
        (payoutLoser { matchId := "M", amount := 40, player1Id := "A", player2Id := "B" } "B") =
        some { balance := 100, lockedBalance := 0 } := by
    intro g
    rw [show payoutLoser { matchId := "M", amount := 40, player1Id := "A", player2Id := "B" } "B" = "A" from by decide]
    rw [StrMap.adjust_other _ _ _ _ (by decide), h3A]
  unfold processPayout
  rw [h3esc]
  dsimp only
  rw [h3B]
  dsimp only
  rw [hm1]
  dsimp only
  rw [show payoutLoser { matchId := "M", amount := 40, player1Id := "A", player2Id := "B" } "B" = "A" from by decide]
  rw [StrMap.adjust_other _ _ _ _ (by decide), StrMap.adjust_self]
  rw [StrMap.adjust_other _ _ _ _ (by decide), h3A]
  norm_num

/-- C10: leaveMatch deletes the match from the active set together with
its game state and readiness record, while the wallet store (escrow
holdings, locked balances, transaction history) and the user store are
left entirely unchanged, as are the pending matches and the match
history of the game store. -/
theorem c10_leaveMatch_frame (s : SysState) (matchId playerId : String) :
    (leaveMatch matchId playerId s).wallet = s.wallet ∧
    (leaveMatch matchId playerId s).userState = s.userState ∧
    (leaveMatch matchId playerId s).game.activeMatches matchId = none ∧
    (leaveMatch matchId playerId s).game.gameStates matchId = none ∧
    (leaveMatch matchId playerId s).game.playerReadyStatus matchId = none ∧
    (leaveMatch matchId playerId s).game.pendingMatches = s.game.pendingMatches ∧
    (leaveMatch matchId playerId s).game.matchHistory = s.game.matchHistory := by
  refine ⟨rfl, rfl, ?_, ?_, ?_, rfl, rfl⟩ <;>
    simp [leaveMatch, StrMap.del_self]

end Pongou
